import Mathlib

/-!
Shallow embedding of the firmware-update pipeline of
`system76driver/firmware.py`, together with theorems checking the
natural-language specification of the module against the code.

Modelling conventions:
* Byte strings are `List Nat`.
* The on-disk blob cache (`/var/cache/system76-firmware`) is an
  association list from filename to contents; a write prepends.
* The network is a `Transport` value: either it yields bytes, or it
  fails with a certificate/identity mismatch, or it fails because the
  network is unreachable.  `urllib.request.urlopen` raising is the
  only effect the Python code observes, so the two failure
  constructors both stand for "urlopen raised".
* Python exceptions are the `.error` side of `Except PyErr`;
  a returned Python `None` payload is `Option.none` in the `.ok` side
  where the source can return `None`.
* SHA-384 hex digesting (`hashlib.sha384(...).hexdigest()`) is an
  abstract parameter `H : Bytes → String`; Ed25519 signature opening
  (`verify_key.verify`) is an abstract parameter
  `verify : Bytes → Option Bytes` (Some payload on success).
-/

namespace Firmware

abbrev Bytes := List Nat

abbrev Cache := List (String × Bytes)

/-- Python exceptions that the modelled code paths can raise. -/
inductive PyErr where
  | typeError
  | checksum
  | badSignature
  | unboundLocal
deriving DecidableEq, Repr

/-- Outcome of one network fetch attempt (`request.urlopen` inside
the no-cache branch of `get_file`): bytes, or one of the two failure
classes of interest (TLS certificate/identity mismatch vs. plain
unreachability).  The Python code cannot tell them apart: both are
exceptions swallowed by the bare `except:`. -/
inductive Transport where
  | ok (b : Bytes)
  | certMismatch
  | unreachable
deriving DecidableEq, Repr

/-- Model of `get_file(filename)` with `cache=None` (firmware.py lines
134-158):
builds a pinned TLS context and calls `urlopen`.  On success it
returns the body; on ANY exception it logs and falls off the end of
the function, returning Python `None`.  No exception escapes, and the
two failure kinds produce identical results. -/
def get_file_net (t : Transport) : Except PyErr (Option Bytes) :=
  match t with
  | .ok b => .ok (some b)
  | .certMismatch => .ok none
  | .unreachable => .ok none

/-- Model of `get_file(filename, cache)` with a cache directory
(lines 116-133).
Result: (value or exception, cache afterwards, whether the network was
consulted).  On a cache hit the file is read back with no network
call.  On a miss, `data = get_file(filename)` fetches; then
opening the target for binary write CREATES the file before
`f.write(data)` runs, so when the fetch produced `None` the empty file
exists at `cache/<filename>` and `f.write(None)` raises `TypeError`. -/
def get_file_cached (t : Transport) (cache : Cache) (filename : String) :
    Except PyErr Bytes × Cache × Bool :=
  match cache.lookup filename with
  | some data => (.ok data, cache, false)
  | none =>
    match get_file_net t with
    | .ok (some data) => (.ok data, (filename, data) :: cache, true)
    | .ok none => (.error .typeError, (filename, ([] : Bytes)) :: cache, true)
    | .error e => (.error e, cache, true)

/-- Model of `get_hashed_file(filename)` (lines 161-177): fetch through the
cache, hash the result with SHA-384 (abstracted as `H`) and compare
the hex digest with the requested filename; on mismatch log and
`raise Exception`.  The `hashed_file is None` branch is unreachable
because `get_file` with a cache either returns bytes or raises. -/
def get_hashed_file (H : Bytes → String) (t : Transport) (cache : Cache)
    (filename : String) : Except PyErr Bytes × Cache × Bool :=
  match get_file_cached t cache filename with
  | (.ok data, c, n) =>
    if H data = filename then (.ok data, c, n) else (.error .checksum, c, n)
  | (.error e, c, n) => (.error e, c, n)

/-- Model of `get_signed_file(filename, ...)` (lines 179-198): fetch WITHOUT the
cache, open the combined signature+payload blob with the pinned
verify key (abstracted as `verify`).  Verification success returns
the signed payload; `BadSignatureError` is re-raised; a `None` fetch
logs and returns `None`. -/
def get_signed_file (verify : Bytes → Option Bytes) (t : Transport) :
    Except PyErr (Option Bytes) :=
  match get_file_net t with
  | .ok (some sf) =>
    match verify sf with
    | some payload => .ok (some payload)
    | none => .error .badSignature
  | .ok none => .ok none
  | .error e => .error e

/-- Filesystem paths as component lists (relative to the filesystem
root). -/
abbrev Path := List String

/-- How the kernel resolves `..` and `.` components when a joined path
such as `os.path.join(dest, member.name)` is opened for writing. -/
def resolve_path (p : Path) : Path :=
  p.foldl (fun acc c =>
    if c = ".." then acc.dropLast else if c = "." then acc else acc.concat c) []

structure TarMember where
  name : Path
  data : Bytes
deriving DecidableEq, Repr

/-- Effect of `Tarball.extract(directory)` (lines 206-209):
`os.chmod(directory, 0o700)`, `self.tar.extractall(directory)`,
`os.chmod(directory, 0o500)`.  The CPython `tarfile.extractall` (as of
the Python 3 versions this code targets, with no filter argument)
writes each member at `os.path.join(directory, member.name)` and
performs NO check that the joined path stays inside `directory`
(CVE-2007-4559), so a member name containing `..` components is
written outside the destination.  No exception is raised. -/
structure ExtractEffect where
  writes : List (Path × Bytes)
  final_mode : Nat
  err : Option PyErr
deriving DecidableEq, Repr

def tarball_extract (directory : Path) (members : List TarMember) : ExtractEffect :=
  { writes := members.map (fun m => (resolve_path (directory ++ m.name), m.data))
    final_mode := 0o500
    err := none }

/-- A written path escapes the destination root when the destination is
not a prefix of the resolved target. -/
def escapes_root (directory : Path) (w : Path) : Bool :=
  !(directory.isPrefixOf w)

/-! ## Changelog evaluation (`get_changes_list`, lines 293-323) -/

/-- One entry of the changelog versions list.  `bios`/`ec`/`ec2` model
the values at those JSON keys; `none` stands for an absent key or a
null value.  For bios and ec the code indexes the entry
unconditionally, so those keys are assumed present in the data
format, possibly null; for ec2 the code first tests key membership
and then truthiness, and an absent key behaves exactly like a falsy
value, so one `Option` covers both. -/
structure ChangelogEntry where
  bios : Option String
  ec : Option String
  ec2 : Option String
  description : String
deriving DecidableEq, Repr

/-- Python truthiness of an optional version string: absent/null and
the empty string are falsy. -/
def truthy : Option String → Bool
  | some s => !(s == "")
  | none => false

/-- Code-point lexicographic strict order on character lists, the
order Python uses to compare strings. -/
def py_str_lt : List Char → List Char → Bool
  | [], [] => false
  | [], _ :: _ => true
  | _ :: _, [] => false
  | a :: as, b :: bs =>
    if a.toNat < b.toNat then true
    else if b.toNat < a.toNat then false
    else py_str_lt as bs

/-- Python `a >= b` on strings: the negation of `a < b` in the total
code-point lexicographic order. -/
def pyGE (a b : String) : Bool := !(py_str_lt a.toList b.toList)

structure Flags where
  bios : Bool
  ec : Bool
  ec2 : Bool
deriving DecidableEq, Repr

def Flags.all (f : Flags) : Bool := f.bios && f.ec && f.ec2

/-- Flag initialisation, lines 294-303.  Only the ec2 flag is set on an
absent installed version: the source lines `if not current_ec: pass`
and `if not current_bios: pass` are no-ops, so `found_bios` and
`found_ec` start `False` regardless of the installed versions. -/
def init_flags (_current_bios _current_ec current_ec2 : Option String) : Flags :=
  { bios := false
    ec := false
    ec2 := if !(truthy current_ec2) then true else false }

/-- Flag updates performed by one loop iteration, lines 305-316. -/
def update_flags (current_bios current_ec current_ec2 : Option String)
    (e : ChangelogEntry) (f : Flags) : Flags :=
  let found_bios :=
    if truthy e.bios && truthy current_bios then
      if pyGE (current_bios.getD "") (e.bios.getD "") then true else f.bios
    else f.bios
  let found_ec :=
    if truthy e.ec && truthy current_ec then
      if pyGE (current_ec.getD "") (e.ec.getD "") then true else f.ec
    else f.ec
  let found_ec2 :=
    if truthy e.ec2 && truthy current_ec2 then
      if pyGE (current_ec2.getD "") (e.ec2.getD "") then true else f.ec2
    else if !(truthy current_ec2) then true else f.ec2
  { bios := found_bios, ec := found_ec, ec2 := found_ec2 }

/-- The `for entry in changelog_entries` loop, lines 304-320: update the
flags, append the entry description while not all three flags are
set, `break` once they are. -/
def changes_walk (current_bios current_ec current_ec2 : Option String) :
    List ChangelogEntry → Flags → List String
  | [], _ => []
  | e :: rest, f =>
    let f' := update_flags current_bios current_ec current_ec2 e f
    if !(f'.all) then
      e.description :: changes_walk current_bios current_ec current_ec2 rest f'
    else []

/-- `get_changes_list(changelog_entries, current_bios, current_ec,
current_ec2=None)`, lines 293-323. -/
def get_changes_list (changelog_entries : List ChangelogEntry)
    (current_bios current_ec current_ec2 : Option String) : List String :=
  let l := changes_walk current_bios current_ec current_ec2 changelog_entries
    (init_flags current_bios current_ec current_ec2)
  if l = [] then ["No Changes"] else l

/-! ## Confirmation dialog and orchestrator -/

/-- Whether `pat` is a prefix of the second list, comparing characters
by code point. -/
def starts_with : List Char → List Char → Bool
  | [], _ => true
  | _ :: _, [] => false
  | p :: ps, c :: cs => (p.toNat == c.toNat) && starts_with ps cs

/-- Whether `pat` occurs as a contiguous substring of the second list. -/
def has_sub (pat : List Char) : List Char → Bool
  | [] => starts_with pat []
  | c :: cs => starts_with pat (c :: cs) || has_sub pat cs

/-- The Python membership test of the string DESKTOP_SESSION=gnome
within the session environment text. -/
def contains_gnome (environ : String) : Bool :=
  has_sub "DESKTOP_SESSION=gnome".toList environ.toList

/-- Model of `confirm_dialog(changes_list)`, lines 248-291.  The shell queries
for the user name, display name and session environment are modelled
as inputs; `dialog_status` is the exit status `subprocess.call`
returns when the dialog does run.  The variable `desktop_env` is only
assigned under `if "DESKTOP_SESSION=gnome" in environ:` (line 272);
when both names are non-empty the `args` list construction at line
281 reads it, raising `UnboundLocalError` if it was never assigned.
The empty-name early return at lines 276-277 happens before that read
and returns Python `None`. -/
def confirm_dialog (user_name display_name environ : String)
    (dialog_status : Int) : Except PyErr (Option Int) :=
  if user_name.length = 0 || display_name.length = 0 then .ok none
  else if contains_gnome environ then .ok (some dialog_status)
  else .error .unboundLocal

/-- Terminal outcomes of one update attempt. -/
inductive Outcome where
  | failed
  | noUpdate
  | declined
  | committed
deriving DecidableEq, Repr

/-- Machine state the orchestrator can touch: the boot-partition
install path `/boot/efi/system76-firmware-update` (its contents, or
`none` when absent), how many times the next-boot scheduling script
has been invoked, and whether the temporary staging directory
currently exists. -/
structure SysState where
  boot_path : Option (List (Path × Bytes))
  sched_calls : Nat
  staging_exists : Bool
deriving DecidableEq, Repr

/-- Model of the private updater entry point (lines 337-384) wrapped by
`run_firmware_updater` (lines 386-390), which catches every exception
and logs it.  Inputs: whether `SignedManifest()` succeeded, whether
the two `HashedTarball` fetches succeeded, whether `needs_update`
reported a newer version, the result of `confirm_dialog` (an
exception, or a returned value), and the fully extracted staging tree
contents.  The `with tempfile.TemporaryDirectory()` block removes the
staging directory on every exit path, including exception
propagation.  Only the `confirm_dialog(...) == 0` branch touches the
boot path (`shutil.rmtree` + `shutil.copytree`) and calls
`set_next_boot`; note Python `None == 0` is `False`, so a `None`
return from the dialog declines. -/
def run_firmware_updater (manifest_ok archives_ok needs_upd : Bool)
    (confirm : Except PyErr (Option Int)) (staged : List (Path × Bytes))
    (s : SysState) : Outcome × SysState :=
  if !manifest_ok then (.failed, s)
  else if !archives_ok then (.failed, s)
  else if !needs_upd then (.noUpdate, { s with staging_exists := false })
  else
    match confirm with
    | .error _ => (.failed, { s with staging_exists := false })
    | .ok r =>
      if r = some 0 then
        (.committed,
          { boot_path := some staged
            sched_calls := s.sched_calls + 1
            staging_exists := false })
      else (.declined, { s with staging_exists := false })

/-! ## Claims -/

/-- C1, counterexample.  At the concrete input where the network
returns the single byte 1 for the requested digest name dd and the
digest function maps everything to zz (a mismatch), `get_hashed_file`
does raise the checksum error, but the cache afterwards DOES contain
an entry for dd holding the fetched bytes, refuting the part of the
claim that says no file is created at the digest path on error. -/
theorem c1_counterexample :
    (get_hashed_file (fun _ => "zz") (.ok [1]) [] "dd").1 = .error .checksum ∧
    (get_hashed_file (fun _ => "zz") (.ok [1]) [] "dd").2.1.lookup "dd" = some [1] :=
  ⟨rfl, rfl⟩

/-- C1, amended: for every digest name D requested through the
hashed-file path, if the bytes B obtained from the network satisfy
hash(B) ≠ D, then the operation raises a checksum-mismatch error, but
the fetched bytes have already been written to the cache under D
(the cache write in `get_file` happens before `get_hashed_file`
verifies the digest), so the cache afterwards maps D to B. -/
theorem c1_mismatch_raises_but_caches (H : Bytes → String) (t : Transport)
    (cache : Cache) (D : String) (B : Bytes)
    (hmiss : cache.lookup D = none) (hnet : t = Transport.ok B)
    (hbad : H B ≠ D) :
    get_hashed_file H t cache D =
      (.error .checksum, (D, B) :: cache, true) ∧
    (get_hashed_file H t cache D).2.1.lookup D = some B := by
  subst hnet
  have h1 : get_hashed_file H (Transport.ok B) cache D =
      (.error .checksum, (D, B) :: cache, true) := by
    unfold get_hashed_file get_file_cached get_file_net
    rw [hmiss]
    simp [hbad]
  refine ⟨h1, ?_⟩
  rw [h1]
  simp [List.lookup]

/-- C1, witness for the amended theorem at a concrete input. -/
theorem c1_mismatch_witness :
    ([] : Cache).lookup "dd" = none ∧
    (Transport.ok [1] = Transport.ok [1]) ∧
    ((fun _ => "zz") [1] ≠ "dd") ∧
    (get_hashed_file (fun _ => "zz") (.ok [1]) [] "dd" =
        (.error .checksum, ("dd", [1]) :: [], true) ∧
      (get_hashed_file (fun _ => "zz") (.ok [1]) [] "dd").2.1.lookup "dd" =
        some [1]) :=
  ⟨rfl, rfl, by decide,
    c1_mismatch_raises_but_caches (fun _ => "zz") (.ok [1]) [] "dd" [1]
      rfl rfl (by decide)⟩

/-- C2: `get_signed_file` returns exactly the signed payload when
verification against the pinned key succeeds, and returns the payload
if and only if verification yields it; on any blob the verifier
rejects — in particular a single-byte tampering of payload or
signature, which Ed25519 verification rejects (hypothesis `htam`) —
it raises the bad-signature error and returns no value. -/
theorem c2_signed_payload_iff_verifies (verify : Bytes → Option Bytes)
    (blob tampered p : Bytes) (htam : verify tampered = none) :
    (get_signed_file verify (.ok blob) = .ok (some p) ↔
      verify blob = some p) ∧
    get_signed_file verify (.ok tampered) = .error .badSignature := by
  constructor
  · cases hv : verify blob <;> simp [get_signed_file, get_file_net, hv]
  · simp [get_signed_file, get_file_net, htam]

/-- C2, witness: a concrete verifier accepting exactly the blob [1]
with payload [2]; the tampered blob [0] is rejected. -/
theorem c2_signed_payload_witness :
    ((fun b => if b = [1] then some [2] else none) [0] = (none : Option Bytes)) ∧
    ((get_signed_file (fun b => if b = [1] then some [2] else none) (.ok [1]) =
          .ok (some [2]) ↔
        (fun b => if b = [1] then some [2] else none) [1] = some [2]) ∧
      get_signed_file (fun b => if b = [1] then some [2] else none) (.ok [0]) =
        .error .badSignature) :=
  ⟨by decide,
    c2_signed_payload_iff_verifies (fun b => if b = [1] then some [2] else none)
      [1] [0] [2] (by decide)⟩

/-- C3: evaluation of `Tarball.extract` at a traversal archive.  The
archive holds one member named ../../evil; extraction into
tmp/stage raises no error and writes the member at the path evil,
which escapes the destination root — the code performs no traversal
check, contradicting the claim that extraction fails and writes
nothing outside the destination root. -/
theorem c3_traversal_extracted_outside_root :
    tarball_extract ["tmp", "stage"] [⟨["..", "..", "evil"], [7]⟩] =
      { writes := [(["evil"], [7])], final_mode := 0o500, err := none } ∧
    escapes_root ["tmp", "stage"] ["evil"] = true :=
  ⟨rfl, rfl⟩

/-- C4, counterexample.  On a certificate/identity mismatch the
uncached fetch returns the normal value None instead of reporting an
error, and the result is identical to the one produced by plain
network unreachability, so no error is raised and the two failure
kinds are not distinguished. -/
theorem c4_counterexample :
    get_file_net .certMismatch = .ok none ∧
    get_file_net .certMismatch = get_file_net .unreachable :=
  ⟨rfl, rfl⟩

/-- C4, amended: for every transport failure (certificate/identity
mismatch or network unreachability) during an uncached fetch,
`get_file` swallows the exception, logs a single generic warning and
returns None to its caller; the two failure kinds produce identical
results and are not distinguished. -/
theorem c4_transport_failure_returns_none (t : Transport)
    (h : t = Transport.certMismatch ∨ t = Transport.unreachable) :
    get_file_net t = .ok none := by
  rcases h with h | h <;> subst h <;> rfl

/-- C4, witness at the certificate-mismatch failure. -/
theorem c4_transport_failure_witness :
    (Transport.certMismatch = Transport.certMismatch ∨
      Transport.certMismatch = Transport.unreachable) ∧
    get_file_net Transport.certMismatch = .ok none :=
  ⟨Or.inl rfl, c4_transport_failure_returns_none Transport.certMismatch (Or.inl rfl)⟩

/-- C5: evaluation showing the found-flags are NOT initialised to true
when the corresponding installed version is absent.  With the
installed bios version absent, the bios flag starts false (the source
line `if not current_bios: pass` is a no-op), and on a changelog
whose single entry is otherwise fully satisfied (installed ec equals
the entry ec, no ec2 anywhere), the absent bios alone makes the entry
be listed as pending, contradicting the claim. -/
theorem c5_absent_bios_flag_stays_false :
    (init_flags none (some "1") none).bios = false ∧
    get_changes_list [⟨some "1", some "1", none, "A"⟩] none (some "1") none =
      ["A"] :=
  ⟨rfl, rfl⟩

/-- C6: evaluation of `get_changes_list` at the input of the claim.
The two entries carry only bios versions (no ec data anywhere), the
installed bios is 2.01.  Because the ec found-flag starts false even
though no ec version is installed (the no-op `pass` of line 301), the
walk never sees all three flags set: it appends BOTH descriptions and
returns [A, B], not the [A] the claim states. -/
theorem c6_walk_returns_both_descriptions :
    get_changes_list
      [⟨some "2.02", none, none, "A"⟩, ⟨some "2.01", none, none, "B"⟩]
      (some "2.01") none none = ["A", "B"] :=
  rfl

/-- C7: `get_changes_list` is deterministic (two calls on identical
inputs return identical lists), and whenever the entry list is empty,
or the first entry already satisfies all three component flags after
the first iteration, the result is exactly the single-element list
containing the sentinel No Changes. -/
theorem c7_deterministic_and_satisfied_gives_no_changes
    (es : List ChangelogEntry) (cb ce ce2 : Option String)
    (h : es = [] ∨ ∃ e rest, es = e :: rest ∧
      (update_flags cb ce ce2 e (init_flags cb ce ce2)).all = true) :
    get_changes_list es cb ce ce2 = get_changes_list es cb ce ce2 ∧
    get_changes_list es cb ce ce2 = ["No Changes"] := by
  refine ⟨rfl, ?_⟩
  rcases h with h | ⟨e, rest, hes, hall⟩
  · subst h; rfl
  · subst hes
    simp [get_changes_list, changes_walk, hall]

/-- C7, witness at the empty changelog. -/
theorem c7_no_changes_witness :
    (([] : List ChangelogEntry) = [] ∨ ∃ e rest,
      ([] : List ChangelogEntry) = e :: rest ∧
      (update_flags none none none e (init_flags none none none)).all = true) ∧
    (get_changes_list [] none none none = get_changes_list [] none none none ∧
      get_changes_list [] none none none = ["No Changes"]) :=
  ⟨Or.inl rfl,
    c7_deterministic_and_satisfied_gives_no_changes [] none none none (Or.inl rfl)⟩

/-- C8: when the update attempt reaches the confirmation call (manifest
verified, archives fetched, update needed) and the confirmation call
returns any status other than 0 — including the None return — the
orchestrator terminates as declined, the boot-partition install path
is left unchanged, the next-boot scheduling script is not invoked,
and the temporary staging directory is removed. -/
theorem c8_decline_leaves_boot_untouched (r : Option Int)
    (staged : List (Path × Bytes)) (s : SysState) (hr : r ≠ some 0) :
    (run_firmware_updater true true true (.ok r) staged s).1 = .declined ∧
    (run_firmware_updater true true true (.ok r) staged s).2.boot_path =
      s.boot_path ∧
    (run_firmware_updater true true true (.ok r) staged s).2.sched_calls =
      s.sched_calls ∧
    (run_firmware_updater true true true (.ok r) staged s).2.staging_exists =
      false := by
  simp [run_firmware_updater, hr]

/-- C8, witness: user declines with exit status 1 on a machine with no
previous updater installed. -/
theorem c8_decline_witness :
    ((some (1 : Int)) ≠ some 0) ∧
    ((run_firmware_updater true true true (.ok (some 1)) []
        ⟨none, 0, false⟩).1 = .declined ∧
      (run_firmware_updater true true true (.ok (some 1)) []
        ⟨none, 0, false⟩).2.boot_path = (⟨none, 0, false⟩ : SysState).boot_path ∧
      (run_firmware_updater true true true (.ok (some 1)) []
        ⟨none, 0, false⟩).2.sched_calls = (⟨none, 0, false⟩ : SysState).sched_calls ∧
      (run_firmware_updater true true true (.ok (some 1)) []
        ⟨none, 0, false⟩).2.staging_exists = false) :=
  ⟨by decide,
    c8_decline_leaves_boot_untouched (some 1) [] ⟨none, 0, false⟩ (by decide)⟩

/-- C9, counterexample.  A non-GNOME session environment alone does not
make `confirm_dialog` raise: when the queried user name is empty, the
early return at lines 276-277 runs before the unbound variable is
ever read, and the function returns None normally. -/
theorem c9_counterexample :
    contains_gnome "FOO=bar" = false ∧
    confirm_dialog "" ":0" "FOO=bar" 0 = .ok none :=
  ⟨by decide, rfl⟩

/-- C9, amended: when the inspected session environment does not
contain DESKTOP_SESSION=gnome, `confirm_dialog` raises the
unbound-variable error if both the queried user name and display name
are non-empty, and returns None through the early-return path
otherwise; in either case the update attempt never reaches the commit
step (outcome is never committed, boot path unchanged). -/
theorem c9_nongnome_never_commits (u d env : String) (x : Int)
    (mo ao nu : Bool) (staged : List (Path × Bytes)) (s : SysState)
    (hg : contains_gnome env = false) :
    (u.length ≠ 0 → d.length ≠ 0 →
      confirm_dialog u d env x = .error .unboundLocal) ∧
    (run_firmware_updater mo ao nu (confirm_dialog u d env x) staged s).1 ≠
      Outcome.committed ∧
    (run_firmware_updater mo ao nu (confirm_dialog u d env x) staged s).2.boot_path =
      s.boot_path := by
  have hc : confirm_dialog u d env x = .ok none ∨
      confirm_dialog u d env x = .error .unboundLocal := by
    unfold confirm_dialog
    by_cases h0 : u.length = 0 || d.length = 0
    · simp [h0]
    · simp [h0, hg]
  refine ⟨?_, ?_⟩
  · intro hu hd
    simp [confirm_dialog, hu, hd, hg]
  · cases mo <;> cases ao <;> cases nu <;> rcases hc with hc | hc <;>
      simp [run_firmware_updater, hc]

/-- C9, witness: concrete non-GNOME environment with non-empty user
and display names. -/
theorem c9_nongnome_witness :
    contains_gnome "FOO=bar" = false ∧
    ((("u" : String).length ≠ 0 → ((":0" : String).length ≠ 0 →
        confirm_dialog "u" ":0" "FOO=bar" 0 = .error .unboundLocal)) ∧
      (run_firmware_updater true true true (confirm_dialog "u" ":0" "FOO=bar" 0)
          [] ⟨none, 0, false⟩).1 ≠ Outcome.committed ∧
      (run_firmware_updater true true true (confirm_dialog "u" ":0" "FOO=bar" 0)
          [] ⟨none, 0, false⟩).2.boot_path =
        (⟨none, 0, false⟩ : SysState).boot_path) :=
  ⟨by decide,
    c9_nongnome_never_commits "u" ":0" "FOO=bar" 0 true true true []
      ⟨none, 0, false⟩ (by decide)⟩

/-- C10: on a cache miss with a failed network fetch, `get_file` first
creates the empty file at the cache path and then raises a type error
writing the absent data; every subsequent cached call for that
filename returns the empty byte string without consulting the network
(even when the network would now return good bytes, here [9]), so a
later `get_hashed_file` call for that digest fails the checksum
comparison instead of re-fetching. -/
theorem c10_failed_fetch_poisons_cache (H : Bytes → String) (cache : Cache)
    (fn : String) (hmiss : cache.lookup fn = none) (hne : H [] ≠ fn) :
    get_file_cached .unreachable cache fn =
      (.error .typeError, (fn, ([] : Bytes)) :: cache, true) ∧
    get_file_cached (.ok [9]) ((fn, ([] : Bytes)) :: cache) fn =
      (.ok [], (fn, ([] : Bytes)) :: cache, false) ∧
    get_hashed_file H (.ok [9]) ((fn, ([] : Bytes)) :: cache) fn =
      (.error .checksum, (fn, ([] : Bytes)) :: cache, false) := by
  refine ⟨?_, ?_, ?_⟩
  · unfold get_file_cached get_file_net
    rw [hmiss]
  · simp [get_file_cached, List.lookup]
  · simp [get_hashed_file, get_file_cached, List.lookup, hne]

/-- C10, witness: a fresh cache, the digest name f, and a digest
function whose value on the empty byte string differs from f. -/
theorem c10_poisoned_cache_witness :
    ([] : Cache).lookup "f" = none ∧
    ((fun _ => "zz") ([] : Bytes) ≠ "f") ∧
    (get_file_cached .unreachable [] "f" =
        (.error .typeError, ("f", ([] : Bytes)) :: [], true) ∧
      get_file_cached (.ok [9]) [("f", ([] : Bytes))] "f" =
        (.ok [], ("f", ([] : Bytes)) :: [], false) ∧
      get_hashed_file (fun _ => "zz") (.ok [9]) [("f", ([] : Bytes))] "f" =
        (.error .checksum, ("f", ([] : Bytes)) :: [], false)) :=
  ⟨rfl, by decide,
    c10_failed_fetch_poisons_cache (fun _ => "zz") [] "f" rfl (by decide)⟩

end Firmware
